import Mathlib

/-!
Verification development for the SparkWalletTracker repository (`src/bot.py`).

The Python source is shallowly embedded: the canonical transaction dictionaries
become the `Tx` structure, the mutable `WalletTracker` object becomes the
explicit `TrackerState` record threaded through each method, Python `dict`s
that are only looked up and updated become functions `String → Option _`, the
insertion-ordered local dict built by `detect_multi_buys` becomes an
association list, Python `float` arithmetic is modelled over `ℚ` (rounding is
abstracted), and wall-clock instants are modelled as integer seconds.
Exceptions of the fetch path are modelled with explicit outcome values.
-/

namespace SparkWallet

/-- Canonical transaction record, mirroring the dictionary built at
`src/bot.py:607-619` by `get_recent_transactions` and consumed by the
detection methods. -/
structure Tx where
  wallet_address : String
  token_address : String
  token_symbol : String
  amount : ℚ
  is_buy : Bool
  is_sell : Bool
  timestamp : Int
  signature : String
  price : ℚ
  transaction_type : String
  sub_category : String
deriving DecidableEq, Repr

/-- The multi-buy / multi-sell result dictionary returned by
`detect_multi_buys` (`src/bot.py:313-319`) and `detect_multi_sells`. -/
structure Candidate where
  token_address : String
  token_symbol : String
  wallet_count : Nat
  total_amount : ℚ
  transactions : List Tx
deriving DecidableEq, Repr

/-- One value of the local `token_buys` / `token_sells` dictionary built by the
detection methods (`src/bot.py:294-304`): the set of distinct wallet addresses,
the running amount sum, the symbol of the first contributing transaction, and
the contributing transactions in input order. -/
structure TokenGroup where
  wallets : Finset String
  total_amount : ℚ
  token_symbol : String
  transactions : List Tx
deriving DecidableEq

/-- The mutable state of the `WalletTracker` object (`src/bot.py:63-74`).
`transactions` is the persisted dedup store (token address → stored
transaction list); `last_api_calls` maps a wallet address to the wall-clock
second of its last recorded API call.  `min_buys_for_alert` and
`min_sells_for_alert` are the thresholds read by the detection methods at
`src/bot.py:308` and `src/bot.py:363`; the source reads them from `self` as
configuration (they are never assigned in `__init__`), so they are modelled
as state fields. -/
structure TrackerState where
  wallets : String → Option String
  tracked_tokens : String → Option (List String)
  transactions : String → Option (List Tx)
  alerts_enabled : Bool
  last_api_calls : String → Option Int
  min_buys_for_alert : Nat
  min_sells_for_alert : Nat

/-- `WalletTracker.is_multi_buy_already_alerted` (`src/bot.py:380-408`):
returns `false` when the token has no stored record; otherwise builds the set
of the candidate transactions' signatures and reports whether any stored
transaction's signature belongs to it. -/
def is_multi_buy_already_alerted (s : TrackerState) (token_address : String)
    (transactions : List Tx) : Bool :=
  match s.transactions token_address with
  | Option.none => false
  | Option.some stored =>
    let current_signatures := transactions.map Tx.signature
    stored.any (fun stored_tx => current_signatures.contains stored_tx.signature)

/-- `WalletTracker.is_multi_sell_already_alerted` (`src/bot.py:410-438`), a
verbatim duplicate of the buy-side check in the source. -/
def is_multi_sell_already_alerted (s : TrackerState) (token_address : String)
    (transactions : List Tx) : Bool :=
  match s.transactions token_address with
  | Option.none => false
  | Option.some stored =>
    let current_signatures := transactions.map Tx.signature
    stored.any (fun stored_tx => current_signatures.contains stored_tx.signature)

/-- `WalletTracker.store_multi_buy` (`src/bot.py:440-457`): ensures the token
has an entry (empty list when absent) and then `extend`s that list with the
candidate's transactions. -/
def store_multi_buy (s : TrackerState) (token_address : String)
    (transactions : List Tx) : TrackerState :=
  let old := (s.transactions token_address).getD []
  { s with transactions := fun t =>
      if t = token_address then Option.some (old ++ transactions)
      else s.transactions t }

/-- `WalletTracker.store_multi_sell` (`src/bot.py:459-476`), a verbatim
duplicate of the buy-side store in the source. -/
def store_multi_sell (s : TrackerState) (token_address : String)
    (transactions : List Tx) : TrackerState :=
  let old := (s.transactions token_address).getD []
  { s with transactions := fun t =>
      if t = token_address then Option.some (old ++ transactions)
      else s.transactions t }

/-- First-match lookup in the insertion-ordered association list that models
the Python `dict` `token_buys` / `token_sells`. -/
def assocFind (l : List (String × TokenGroup)) (k : String) : Option TokenGroup :=
  match l with
  | [] => Option.none
  | (k', v) :: rest => if k' = k then Option.some v else assocFind rest k

/-- In-place value replacement for an existing key, preserving entry order
(Python `dict` assignment to a present key keeps its position). -/
def assocUpdate (l : List (String × TokenGroup)) (k : String) (v : TokenGroup) :
    List (String × TokenGroup) :=
  l.map (fun p => if p.1 = k then (k, v) else p)

/-- One iteration of the grouping loop of `detect_multi_buys`
(`src/bot.py:286-304`): skip non-buys and empty token addresses, create the
group on first sight of a token (appended at the end, as Python dict insertion
order does), then add the wallet to the set, add the amount, and append the
transaction. -/
def addBuyTx (acc : List (String × TokenGroup)) (tx : Tx) :
    List (String × TokenGroup) :=
  if !tx.is_buy then acc
  else if tx.token_address = "" then acc
  else
    match assocFind acc tx.token_address with
    | Option.none =>
      acc ++ [(tx.token_address,
        { wallets := {tx.wallet_address}, total_amount := tx.amount,
          token_symbol := tx.token_symbol, transactions := [tx] })]
    | Option.some g =>
      assocUpdate acc tx.token_address
        { wallets := insert tx.wallet_address g.wallets,
          total_amount := g.total_amount + tx.amount,
          token_symbol := g.token_symbol,
          transactions := g.transactions ++ [tx] }

/-- One iteration of the grouping loop of `detect_multi_sells`
(`src/bot.py:341-359`); identical to the buy side but keyed on `is_sell`. -/
def addSellTx (acc : List (String × TokenGroup)) (tx : Tx) :
    List (String × TokenGroup) :=
  if !tx.is_sell then acc
  else if tx.token_address = "" then acc
  else
    match assocFind acc tx.token_address with
    | Option.none =>
      acc ++ [(tx.token_address,
        { wallets := {tx.wallet_address}, total_amount := tx.amount,
          token_symbol := tx.token_symbol, transactions := [tx] })]
    | Option.some g =>
      assocUpdate acc tx.token_address
        { wallets := insert tx.wallet_address g.wallets,
          total_amount := g.total_amount + tx.amount,
          token_symbol := g.token_symbol,
          transactions := g.transactions ++ [tx] }

/-- The reporting loop of `detect_multi_buys` (`src/bot.py:307-323`): walk the
groups in insertion order and return the first one whose distinct-wallet count
meets `min_buys_for_alert` and whose transactions are not already alerted. -/
def scanBuyGroups (s : TrackerState) : List (String × TokenGroup) → Option Candidate
  | [] => Option.none
  | (token_address, g) :: rest =>
    if s.min_buys_for_alert ≤ g.wallets.card then
      if !is_multi_buy_already_alerted s token_address g.transactions then
        Option.some
          { token_address := token_address, token_symbol := g.token_symbol,
            wallet_count := g.wallets.card, total_amount := g.total_amount,
            transactions := g.transactions }
      else scanBuyGroups s rest
    else scanBuyGroups s rest

/-- The reporting loop of `detect_multi_sells` (`src/bot.py:362-378`). -/
def scanSellGroups (s : TrackerState) : List (String × TokenGroup) → Option Candidate
  | [] => Option.none
  | (token_address, g) :: rest =>
    if s.min_sells_for_alert ≤ g.wallets.card then
      if !is_multi_sell_already_alerted s token_address g.transactions then
        Option.some
          { token_address := token_address, token_symbol := g.token_symbol,
            wallet_count := g.wallets.card, total_amount := g.total_amount,
            transactions := g.transactions }
      else scanSellGroups s rest
    else scanSellGroups s rest

/-- `WalletTracker.detect_multi_buys` (`src/bot.py:270-323`). -/
def detect_multi_buys (s : TrackerState) (transactions : List Tx) : Option Candidate :=
  scanBuyGroups s (transactions.foldl addBuyTx [])

/-- `WalletTracker.detect_multi_sells` (`src/bot.py:325-378`). -/
def detect_multi_sells (s : TrackerState) (transactions : List Tx) : Option Candidate :=
  scanSellGroups s (transactions.foldl addSellTx [])

/-- State-passing form of `detect_multi_buys`: the method body
(`src/bot.py:270-323`) contains no assignment to any `self` attribute, so the
threaded state comes back unchanged. -/
def detect_multi_buys_op (s : TrackerState) (transactions : List Tx) :
    Option Candidate × TrackerState :=
  (detect_multi_buys s transactions, s)

/-- State-passing form of `detect_multi_sells` (`src/bot.py:325-378`); no
`self` attribute is assigned. -/
def detect_multi_sells_op (s : TrackerState) (transactions : List Tx) :
    Option Candidate × TrackerState :=
  (detect_multi_sells s transactions, s)

/-- State-passing form of `is_multi_buy_already_alerted`
(`src/bot.py:380-408`); no `self` attribute is assigned. -/
def is_multi_buy_already_alerted_op (s : TrackerState) (token_address : String)
    (transactions : List Tx) : Bool × TrackerState :=
  (is_multi_buy_already_alerted s token_address transactions, s)

/-- State-passing form of `is_multi_sell_already_alerted`
(`src/bot.py:410-438`); no `self` attribute is assigned. -/
def is_multi_sell_already_alerted_op (s : TrackerState) (token_address : String)
    (transactions : List Tx) : Bool × TrackerState :=
  (is_multi_sell_already_alerted s token_address transactions, s)

/-- `WalletTracker.can_call_api` (`src/bot.py:478-496`): callable when the
wallet has no recorded call, or when at least 60 seconds have elapsed.
`now` models `datetime.now()` in whole seconds. -/
def can_call_api (s : TrackerState) (now : Int) (wallet_address : String) : Bool :=
  match s.last_api_calls wallet_address with
  | Option.none => true
  | Option.some last_call => decide (60 ≤ now - last_call)

/-- `WalletTracker.update_last_api_call` (`src/bot.py:498-505`). -/
def update_last_api_call (s : TrackerState) (now : Int) (wallet_address : String) :
    TrackerState :=
  { s with last_api_calls := fun a =>
      if a = wallet_address then Option.some now else s.last_api_calls a }

/-- The per-wallet slice of the polling loop `check_transactions`
(`src/bot.py:657-667`): skip the wallet when `can_call_api` is false;
otherwise take the fetched list and record the call time only when that list
is non-empty (the source comment reads "Only update timestamp if we got
transactions").  Returns the updated state and the transactions contributed
to the cycle's aggregate. -/
def poll_wallet (s : TrackerState) (now : Int) (wallet_address : String)
    (fetched : List Tx) : TrackerState × List Tx :=
  if can_call_api s now wallet_address then
    (if fetched.isEmpty then s else update_last_api_call s now wallet_address,
     fetched)
  else (s, [])

/-- A Python value sitting in a numeric field of a raw upstream record: a JSON
number, a JSON string, or `null` (`None`). -/
inductive PyNum where
  | pnum (q : ℚ)
  | pstr (s : String)
  | pnone
deriving DecidableEq, Repr

/-- The `blockTimestamp` field of a raw upstream record: either a string (an
absent field is the empty string, per `tx.get('blockTimestamp', '')` at
`src/bot.py:598`) or an integer (epoch milliseconds). -/
inductive PyTs where
  | tstr (s : String)
  | tint (n : Int)
deriving DecidableEq, Repr

/-- The `bought` / `sold` sub-object of a raw upstream record, restricted to
the fields the fetcher reads (`src/bot.py:594-595`); `amount = Option.none`
models an absent field, which defaults to `0`. -/
structure RawSide where
  symbol : String
  amount : Option PyNum
deriving DecidableEq, Repr

/-- A raw upstream swap record, restricted to the fields read by
`get_recent_transactions` (`src/bot.py:574-619`); absent string fields are
the empty string, per the `tx.get(..., '')` defaults. -/
structure RawTx where
  transactionType : String
  subCategory : String
  walletAddress : String
  pairAddress : String
  bought : RawSide
  sold : RawSide
  blockTimestamp : PyTs
  signature : String
  price : Option PyNum
deriving DecidableEq, Repr

/-- Digit list to number, most significant first. -/
def digitsToNat (l : List Char) : Nat :=
  l.foldl (fun a c => 10 * a + (c.toNat - 48)) 0

/-- Model of Python `float(s)` on plain decimal literals: optional sign,
integer digits, optional `.` and fraction digits, at least one digit overall.
Scientific notation, `inf`/`nan` and surrounding whitespace — never produced
by the upstream fields at issue — are not modelled and yield `Option.none`
(a `ValueError` in the source). -/
def pyFloatString (s : String) : Option ℚ :=
  let (neg, l) :=
    match s.data with
    | '-' :: r => (true, r)
    | '+' :: r => (false, r)
    | l => (false, l)
  let intPart := l.takeWhile Char.isDigit
  let rest := l.dropWhile Char.isDigit
  let value : Option ℚ :=
    match rest with
    | [] =>
      if intPart.isEmpty then Option.none
      else Option.some ((digitsToNat intPart : ℚ))
    | '.' :: frac =>
      if frac.all Char.isDigit ∧ ¬(intPart.isEmpty ∧ frac.isEmpty) then
        Option.some ((digitsToNat intPart : ℚ) +
          (digitsToNat frac : ℚ) / ((10 : ℚ) ^ frac.length))
      else Option.none
    | _ => Option.none
  value.map (fun q => if neg then -q else q)

/-- Model of Python `float(x)` applied to a raw field value with default `0`
for an absent field (`bought.get('amount', 0)`, `tx.get('price', 0)`):
numbers pass through, strings go through `pyFloatString`, and `None` raises
`TypeError`, i.e. yields `Option.none`. -/
def pyFloatOpt : Option PyNum → Option ℚ
  | Option.none => Option.some 0
  | Option.some (PyNum.pnum q) => Option.some q
  | Option.some (PyNum.pstr s) => pyFloatString s
  | Option.some PyNum.pnone => Option.none

/-- Replace every `'Z'` by `"+00:00"`, modelling
`timestamp_str.replace('Z', '+00:00')` at `src/bot.py:601`. -/
def replaceZChars : List Char → List Char
  | [] => []
  | c :: rest =>
    if c = 'Z' then '+' :: '0' :: '0' :: ':' :: '0' :: '0' :: replaceZChars rest
    else c :: replaceZChars rest

/-- String form of `replaceZChars`. -/
def pyReplaceZ (s : String) : String := String.mk (replaceZChars s.data)

/-- Leap-year test of the proleptic Gregorian calendar. -/
def isLeap (y : Nat) : Bool :=
  (y % 4 == 0 && !(y % 100 == 0)) || (y % 400 == 0)

/-- Length of a month. -/
def daysInMonth (leap : Bool) (m : Nat) : Nat :=
  match m with
  | 1 => 31 | 2 => if leap then 29 else 28 | 3 => 31 | 4 => 30
  | 5 => 31 | 6 => 30 | 7 => 31 | 8 => 31 | 9 => 30 | 10 => 31
  | 11 => 30 | 12 => 31 | _ => 0

/-- Days from 1970-01-01 to the given civil date (standard days-from-civil
computation; exact for years `1..9999`, the range `datetime` accepts). -/
def daysFromCivil (y m d : Nat) : Int :=
  let y' := if m ≤ 2 then y - 1 else y
  let era := y' / 400
  let yoe := y' % 400
  let mp := if 2 < m then m - 3 else m + 9
  let doy := (153 * mp + 2) / 5 + d - 1
  let doe := yoe * 365 + yoe / 4 - yoe / 100 + doy
  ((era * 146097 + doe : Nat) : Int) - 719468

/-- Decimal value of two digit characters. -/
def digit2 (a b : Char) : Option Nat :=
  if a.isDigit ∧ b.isDigit then
    Option.some (10 * (a.toNat - 48) + (b.toNat - 48))
  else Option.none

/-- Decimal value of four digit characters. -/
def digit4 (a b c d : Char) : Option Nat :=
  match digit2 a b, digit2 c d with
  | Option.some x, Option.some y => Option.some (100 * x + y)
  | _, _ => Option.none

/-- Model of `int(datetime.fromisoformat(s).timestamp())` at
`src/bot.py:601-602` on the UTC-offset strings the fetcher produces: accepts
exactly `YYYY-MM-DDTHH:MM:SS+00:00` with valid calendar ranges and returns
epoch seconds; anything else yields `Option.none` (a `ValueError` in the
source).  Other `fromisoformat` shapes (fractional seconds, non-zero offsets,
naive local-time strings) are outside the upstream `Z`-suffixed format and
are not modelled. -/
def isoToUnix (s : String) : Option Int :=
  match s.data with
  | [y1, y2, y3, y4, '-', m1, m2, '-', d1, d2, 'T',
     h1, h2, ':', n1, n2, ':', s1, s2, '+', '0', '0', ':', '0', '0'] =>
    match digit4 y1 y2 y3 y4, digit2 m1 m2, digit2 d1 d2,
          digit2 h1 h2, digit2 n1 n2, digit2 s1 s2 with
    | Option.some y, Option.some mo, Option.some da,
      Option.some ho, Option.some mi, Option.some se =>
      if 1 ≤ y ∧ y ≤ 9999 ∧ 1 ≤ mo ∧ mo ≤ 12 ∧ 1 ≤ da ∧
         da ≤ daysInMonth (isLeap y) mo ∧ ho ≤ 23 ∧ mi ≤ 59 ∧ se ≤ 59 then
        Option.some (daysFromCivil y mo da * 86400 + ho * 3600 + mi * 60 + se)
      else Option.none
    | _, _, _, _, _, _ => Option.none
  | _ => Option.none

/-- Outcome of processing one raw record in the transform loop of
`get_recent_transactions` (`src/bot.py:570-623`): a canonical transaction is
appended, or the record is skipped (`continue`, from the side filter or a
caught `ValueError`/`TypeError`), or an uncaught exception aborts the whole
call (the `AttributeError` from `.replace` on a non-string `blockTimestamp`
is not caught by the inner handler and propagates to the outermost
`except Exception`, which returns `[]`). -/
inductive Outcome where
  | ok (t : Tx)
  | skip
  | abort
deriving DecidableEq, Repr

/-- The per-record body of the transform loop (`src/bot.py:574-623`), with the
source's evaluation order: side classification first, then the amount
conversion, then the timestamp parse, then the price conversion. -/
def processTx (r : RawTx) : Outcome :=
  let is_buy := r.subCategory = "newPosition"
  let is_sell := r.subCategory = "sellAll"
  if is_buy ∨ is_sell then
    let side := if is_buy then r.bought else r.sold
    match pyFloatOpt side.amount with
    | Option.none => Outcome.skip
    | Option.some amount =>
      match r.blockTimestamp with
      | PyTs.tint _ => Outcome.abort
      | PyTs.tstr ts_str =>
        match isoToUnix (pyReplaceZ ts_str) with
        | Option.none => Outcome.skip
        | Option.some timestamp =>
          match pyFloatOpt r.price with
          | Option.none => Outcome.skip
          | Option.some price =>
            Outcome.ok
              { wallet_address := r.walletAddress,
                token_address := r.pairAddress,
                token_symbol := side.symbol,
                amount := amount,
                is_buy := decide is_buy,
                is_sell := decide is_sell,
                timestamp := timestamp,
                signature := r.signature,
                price := price,
                transaction_type := r.transactionType,
                sub_category := r.subCategory }
  else Outcome.skip

/-- The transform loop over a result page: `Option.none` models an uncaught
exception escaping the loop. -/
def processResult : List RawTx → Option (List Tx)
  | [] => Option.some []
  | r :: rest =>
    match processTx r with
    | Outcome.abort => Option.none
    | Outcome.skip => processResult rest
    | Outcome.ok t => (processResult rest).map (fun l => t :: l)

/-- `get_recent_transactions` (`src/bot.py:510-633`) from the point where the
HTTP response has been parsed into the `result` array: transform each record;
an uncaught exception reaches the outermost `except Exception` handler, which
returns `[]`. -/
def get_recent_transactions (page : List RawTx) : List Tx :=
  (processResult page).getD []

/-- The signature set persisted for a token: the signatures of the stored
transaction list, as a `Finset`. -/
def storedSigSet (s : TrackerState) (token_address : String) : Finset String :=
  (((s.transactions token_address).getD []).map Tx.signature).toFinset

/-- Distinct-wallet set recorded for a token by a grouping association list
(empty when the token has no group). -/
def groupWalletSet (l : List (String × TokenGroup)) (t : String) : Finset String :=
  match assocFind l t with
  | Option.none => ∅
  | Option.some g => g.wallets

/-- Amount total recorded for a token by a grouping association list. -/
def groupTotalAmount (l : List (String × TokenGroup)) (t : String) : ℚ :=
  match assocFind l t with
  | Option.none => 0
  | Option.some g => g.total_amount

/-- The buy transactions of a batch for one token. -/
def buysOf (txs : List Tx) (t : String) : List Tx :=
  txs.filter (fun tx => tx.is_buy && (tx.token_address == t))

/-- Distinct wallets appearing among a batch's buys of one token. -/
def buyWalletSet (txs : List Tx) (t : String) : Finset String :=
  ((buysOf txs t).map Tx.wallet_address).toFinset

/-- Amount sum over a batch's buys of one token. -/
def buyTotal (txs : List Tx) (t : String) : ℚ :=
  ((buysOf txs t).map Tx.amount).sum

theorem assocFind_append_of_none {l₁ l₂ : List (String × TokenGroup)} {k : String}
    (h : assocFind l₁ k = Option.none) :
    assocFind (l₁ ++ l₂) k = assocFind l₂ k := by
  induction l₁ with
  | nil => rfl
  | cons p rest ih =>
    obtain ⟨k', v⟩ := p
    by_cases hk : k' = k
    · simp [assocFind, hk] at h
    · simp only [assocFind, hk, if_false, List.cons_append] at h ⊢
      exact ih h

theorem assocFind_append_of_some {l₁ l₂ : List (String × TokenGroup)} {k : String}
    {v : TokenGroup} (h : assocFind l₁ k = Option.some v) :
    assocFind (l₁ ++ l₂) k = Option.some v := by
  induction l₁ with
  | nil => simp [assocFind] at h
  | cons p rest ih =>
    obtain ⟨k', w⟩ := p
    by_cases hk : k' = k
    · simp only [assocFind, hk, if_true, List.cons_append, if_pos rfl] at h ⊢
      exact h
    · simp only [assocFind, hk, if_false, List.cons_append] at h ⊢
      exact ih h

theorem assocFind_update_self {l : List (String × TokenGroup)} {k : String}
    {g v : TokenGroup} (h : assocFind l k = Option.some g) :
    assocFind (assocUpdate l k v) k = Option.some v := by
  induction l with
  | nil => simp [assocFind] at h
  | cons p rest ih =>
    obtain ⟨k', w⟩ := p
    by_cases hk : k' = k
    · subst hk
      simp only [assocUpdate, List.map_cons]
      simp [assocFind]
    · simp only [assocFind, hk, if_false] at h
      simp only [assocUpdate, List.map_cons]
      rw [if_neg hk]
      simp only [assocFind, hk, if_false]
      exact ih h

theorem assocFind_update_of_ne {l : List (String × TokenGroup)} {k t : String}
    {v : TokenGroup} (h : t ≠ k) :
    assocFind (assocUpdate l k v) t = assocFind l t := by
  induction l with
  | nil => rfl
  | cons p rest ih =>
    obtain ⟨k', w⟩ := p
    simp only [assocUpdate, List.map_cons]
    by_cases hk : k' = k
    · subst hk
      rw [if_pos rfl]
      simp only [assocFind]
      rw [if_neg (Ne.symm h), if_neg (Ne.symm h)]
      exact ih
    · rw [if_neg hk]
      simp only [assocFind]
      by_cases hkt : k' = t
      · rw [if_pos hkt, if_pos hkt]
      · rw [if_neg hkt, if_neg hkt]
        exact ih

theorem addBuyTx_not_buy {acc : List (String × TokenGroup)} {tx : Tx}
    (h : tx.is_buy = false) : addBuyTx acc tx = acc := by
  simp [addBuyTx, h]

theorem addBuyTx_empty_token {acc : List (String × TokenGroup)} {tx : Tx}
    (h : tx.is_buy = true) (hz : tx.token_address = "") : addBuyTx acc tx = acc := by
  simp [addBuyTx, h, hz]

theorem addBuyTx_new {acc : List (String × TokenGroup)} {tx : Tx}
    (h : tx.is_buy = true) (hz : ¬tx.token_address = "")
    (hf : assocFind acc tx.token_address = Option.none) :
    addBuyTx acc tx = acc ++ [(tx.token_address,
      { wallets := {tx.wallet_address}, total_amount := tx.amount,
        token_symbol := tx.token_symbol, transactions := [tx] })] := by
  simp [addBuyTx, h, hz, hf]

theorem addBuyTx_existing {acc : List (String × TokenGroup)} {tx : Tx} {g : TokenGroup}
    (h : tx.is_buy = true) (hz : ¬tx.token_address = "")
    (hf : assocFind acc tx.token_address = Option.some g) :
    addBuyTx acc tx = assocUpdate acc tx.token_address
      { wallets := insert tx.wallet_address g.wallets,
        total_amount := g.total_amount + tx.amount,
        token_symbol := g.token_symbol,
        transactions := g.transactions ++ [tx] } := by
  simp [addBuyTx, h, hz, hf]

theorem assocFind_append_singleton_of_ne {acc : List (String × TokenGroup)}
    {k t : String} {g : TokenGroup} (hkt : ¬k = t) :
    assocFind (acc ++ [(k, g)]) t = assocFind acc t := by
  cases hat : assocFind acc t with
  | none => rw [assocFind_append_of_none hat]; simp [assocFind, hkt]
  | some v => rw [assocFind_append_of_some hat]

theorem groupWalletSet_addBuyTx (acc : List (String × TokenGroup)) (tx : Tx)
    (t : String) (ht : t ≠ "") :
    groupWalletSet (addBuyTx acc tx) t =
      groupWalletSet acc t ∪
        (if tx.is_buy = true ∧ tx.token_address = t then {tx.wallet_address} else ∅) := by
  cases hb : tx.is_buy with
  | false =>
    rw [addBuyTx_not_buy hb]
    simp [hb]
  | true =>
    by_cases hz : tx.token_address = ""
    · have hne : ¬tx.token_address = t := fun htt => ht (by rw [← htt, hz])
      rw [addBuyTx_empty_token hb hz]
      simp [hne]
    · cases hfind : assocFind acc tx.token_address with
      | none =>
        rw [addBuyTx_new hb hz hfind]
        by_cases hkt : tx.token_address = t
        · subst hkt
          have h1 : groupWalletSet acc tx.token_address = ∅ := by
            simp [groupWalletSet, hfind]
          rw [h1, if_pos ⟨rfl, rfl⟩]
          simp only [groupWalletSet, assocFind_append_of_none hfind, assocFind, if_pos rfl]
          simp
        · simp only [groupWalletSet, assocFind_append_singleton_of_ne hkt, hb, true_and,
            hkt, if_false, Finset.union_empty]
      | some g =>
        rw [addBuyTx_existing hb hz hfind]
        by_cases hkt : tx.token_address = t
        · subst hkt
          have h1 : groupWalletSet acc tx.token_address = g.wallets := by
            simp [groupWalletSet, hfind]
          rw [h1, if_pos ⟨rfl, rfl⟩]
          simp only [groupWalletSet, assocFind_update_self hfind]
          rw [Finset.union_comm, ← Finset.insert_eq]
        · simp only [groupWalletSet, assocFind_update_of_ne (Ne.symm hkt), hb, true_and,
            hkt, if_false, Finset.union_empty]

theorem groupTotalAmount_addBuyTx (acc : List (String × TokenGroup)) (tx : Tx)
    (t : String) (ht : t ≠ "") :
    groupTotalAmount (addBuyTx acc tx) t =
      groupTotalAmount acc t +
        (if tx.is_buy = true ∧ tx.token_address = t then tx.amount else 0) := by
  cases hb : tx.is_buy with
  | false =>
    rw [addBuyTx_not_buy hb]
    simp [hb]
  | true =>
    by_cases hz : tx.token_address = ""
    · have hne : ¬tx.token_address = t := fun htt => ht (by rw [← htt, hz])
      rw [addBuyTx_empty_token hb hz]
      simp [hne]
    · cases hfind : assocFind acc tx.token_address with
      | none =>
        rw [addBuyTx_new hb hz hfind]
        by_cases hkt : tx.token_address = t
        · subst hkt
          have h1 : groupTotalAmount acc tx.token_address = 0 := by
            simp [groupTotalAmount, hfind]
          rw [h1, if_pos ⟨rfl, rfl⟩]
          simp only [groupTotalAmount, assocFind_append_of_none hfind, assocFind, if_pos rfl]
          simp
        · simp only [groupTotalAmount, assocFind_append_singleton_of_ne hkt, hb, true_and,
            hkt, if_false, add_zero]
      | some g =>
        rw [addBuyTx_existing hb hz hfind]
        by_cases hkt : tx.token_address = t
        · subst hkt
          have h1 : groupTotalAmount acc tx.token_address = g.total_amount := by
            simp [groupTotalAmount, hfind]
          rw [h1, if_pos ⟨rfl, rfl⟩]
          simp only [groupTotalAmount, assocFind_update_self hfind]
        · simp only [groupTotalAmount, assocFind_update_of_ne (Ne.symm hkt), hb, true_and,
            hkt, if_false, add_zero]

theorem buyWalletSet_cons (tx : Tx) (txs : List Tx) (t : String) :
    buyWalletSet (tx :: txs) t =
      (if tx.is_buy = true ∧ tx.token_address = t then {tx.wallet_address} else ∅) ∪
        buyWalletSet txs t := by
  by_cases hc : tx.is_buy = true ∧ tx.token_address = t
  · simp [buyWalletSet, buysOf, List.filter_cons, hc.1, hc.2, Finset.insert_eq]
  · have hcb : ¬(tx.is_buy && (tx.token_address == t)) = true := by
      simp only [Bool.and_eq_true, beq_iff_eq]
      exact hc
    simp [buyWalletSet, buysOf, List.filter_cons, hcb, hc]

theorem buyTotal_cons (tx : Tx) (txs : List Tx) (t : String) :
    buyTotal (tx :: txs) t =
      (if tx.is_buy = true ∧ tx.token_address = t then tx.amount else 0) +
        buyTotal txs t := by
  by_cases hc : tx.is_buy = true ∧ tx.token_address = t
  · simp [buyTotal, buysOf, List.filter_cons, hc.1, hc.2]
  · have : ¬(tx.is_buy && (tx.token_address == t)) = true := by
      simp only [Bool.and_eq_true, beq_iff_eq]
      exact hc
    simp [buyTotal, buysOf, List.filter_cons, this, hc]

theorem groupWalletSet_foldl : ∀ (txs : List Tx) (acc : List (String × TokenGroup))
    (t : String), t ≠ "" →
    groupWalletSet (txs.foldl addBuyTx acc) t = groupWalletSet acc t ∪ buyWalletSet txs t
  | [], acc, t, _ => by simp [buyWalletSet, buysOf]
  | tx :: rest, acc, t, ht => by
    rw [List.foldl_cons, groupWalletSet_foldl rest _ t ht,
      groupWalletSet_addBuyTx acc tx t ht, buyWalletSet_cons, Finset.union_assoc]

theorem groupTotalAmount_foldl : ∀ (txs : List Tx) (acc : List (String × TokenGroup))
    (t : String), t ≠ "" →
    groupTotalAmount (txs.foldl addBuyTx acc) t = groupTotalAmount acc t + buyTotal txs t
  | [], acc, t, _ => by simp [buyTotal, buysOf]
  | tx :: rest, acc, t, ht => by
    rw [List.foldl_cons, groupTotalAmount_foldl rest _ t ht,
      groupTotalAmount_addBuyTx acc tx t ht, buyTotal_cons, add_assoc]

theorem buyWalletSet_perm {l l' : List Tx} (h : l.Perm l') (t : String) :
    buyWalletSet l t = buyWalletSet l' t :=
  List.toFinset_eq_of_perm _ _ ((h.filter _).map _)

theorem buyTotal_perm {l l' : List Tx} (h : l.Perm l') (t : String) :
    buyTotal l t = buyTotal l' t :=
  List.Perm.sum_eq ((h.filter _).map _)

theorem processResult_skip {r : RawTx} (h : processTx r = Outcome.skip)
    (l₁ l₂ : List RawTx) :
    processResult (l₁ ++ r :: l₂) = processResult (l₁ ++ l₂) := by
  induction l₁ with
  | nil => simp [processResult, h]
  | cons a rest ih =>
    cases hpa : processTx a <;> simp [processResult, hpa, ih]

theorem processResult_abort {r : RawTx} (h : processTx r = Outcome.abort) :
    ∀ page : List RawTx, r ∈ page → processResult page = Option.none := by
  intro page hmem
  induction page with
  | nil => cases hmem
  | cons a rest ih =>
    rcases List.mem_cons.1 hmem with rfl | hmem'
    · simp [processResult, h]
    · cases hpa : processTx a <;> simp [processResult, hpa, ih hmem']

/-- A buy transaction literal, used to build concrete batches. -/
def mkBuy (w t sig : String) (a : ℚ) : Tx :=
  { wallet_address := w, token_address := t, token_symbol := "S", amount := a,
    is_buy := true, is_sell := false, timestamp := 0, signature := sig,
    price := 1, transaction_type := "buy", sub_category := "newPosition" }

/-- A freshly initialized tracker (`__init__`, `src/bot.py:63-74`) with no
persisted data, with the detection thresholds set to the given values. -/
def freshState (nbuys nsells : Nat) : TrackerState :=
  { wallets := fun _ => Option.none, tracked_tokens := fun _ => Option.none,
    transactions := fun _ => Option.none, alerts_enabled := true,
    last_api_calls := fun _ => Option.none,
    min_buys_for_alert := nbuys, min_sells_for_alert := nsells }

/-- A stored transaction with signature `"sig1"`. -/
def sig1Tx : Tx := mkBuy "W1" "T" "sig1" 1

/-- A fresh transaction with signature `"sig2"`. -/
def sig2Tx : Tx := mkBuy "W2" "T" "sig2" 1

/-- A tracker whose persisted dedup store holds `sig1Tx` under token `"T"`. -/
def dedupExState : TrackerState :=
  { freshState 3 3 with transactions := fun t =>
      if t = "T" then Option.some [sig1Tx] else Option.none }

/-- A well-formed raw upstream buy record with a `Z`-suffixed ISO-8601
timestamp. -/
def rGoodIso : RawTx :=
  { transactionType := "buy", subCategory := "newPosition",
    walletAddress := "W1", pairAddress := "P1",
    bought := { symbol := "TOK", amount := Option.some (PyNum.pnum 2) },
    sold := { symbol := "", amount := Option.none },
    blockTimestamp := PyTs.tstr "2024-01-01T00:00:00Z", signature := "g1",
    price := Option.some (PyNum.pnum 1) }

/-- The same record with an integer epoch-milliseconds `blockTimestamp`. -/
def rIntMillis : RawTx :=
  { rGoodIso with blockTimestamp := PyTs.tint 1704067200000, signature := "m1" }

/-- The same record with an unparseable string `blockTimestamp`. -/
def rBadIso : RawTx :=
  { rGoodIso with blockTimestamp := PyTs.tstr "not-a-timestamp", signature := "b1" }

/-- The same record with a malformed (non-numeric string) bought amount. -/
def rOopsAmount : RawTx :=
  { rGoodIso with
    bought := { symbol := "TOK", amount := Option.some (PyNum.pstr "oops") },
    signature := "o1" }

/-- Two tokens, two distinct buying wallets each, `T1` first. -/
def permBatchA : List Tx :=
  [mkBuy "A" "T1" "p1" 1, mkBuy "B" "T1" "p2" 1] ++
    [mkBuy "C" "T2" "p3" 1, mkBuy "D" "T2" "p4" 1]

/-- The same four transactions with the two token blocks swapped. -/
def permBatchB : List Tx :=
  [mkBuy "C" "T2" "p3" 1, mkBuy "D" "T2" "p4" 1] ++
    [mkBuy "A" "T1" "p1" 1, mkBuy "B" "T1" "p2" 1]

/-- C10: detection never mutates the persisted dedup state: `detect_multi_buys`,
`detect_multi_sells` and the embedded already-alerted checks leave the
transactions store, the wallet registry and the tracked-token registry (the
whole tracker state) unchanged; their method bodies assign no `self`
attribute, so the threaded state comes back identical. -/
theorem detection_leaves_state_unchanged (s : TrackerState) (txs : List Tx)
    (t : String) :
    (detect_multi_buys_op s txs).2 = s ∧
    (detect_multi_sells_op s txs).2 = s ∧
    (is_multi_buy_already_alerted_op s t txs).2 = s ∧
    (is_multi_sell_already_alerted_op s t txs).2 = s :=
  ⟨rfl, rfl, rfl, rfl⟩

/-- C2: whenever some transaction stored for the token has a signature that
also occurs among the candidate's transaction signatures, the
already-alerted check returns `true` (the candidate is suppressed as a
whole). -/
theorem already_alerted_of_signature_overlap (s : TrackerState) (t : String)
    (txs stored : List Tx) (stx : Tx)
    (hstore : s.transactions t = Option.some stored) (hmem : stx ∈ stored)
    (hsig : stx.signature ∈ txs.map Tx.signature) :
    is_multi_buy_already_alerted s t txs = true := by
  unfold is_multi_buy_already_alerted
  rw [hstore]
  simp only [List.any_eq_true]
  exact ⟨stx, hmem, by simpa using hsig⟩

/-- C2 witness: the spec's `"sig1"`/`"sig2"` scenario — `"sig1"` is stored
for `"T"`, the candidate holds `"sig1"` and the new `"sig2"`, and the check
reports the candidate as already alerted. -/
theorem already_alerted_of_signature_overlap_witness :
    is_multi_buy_already_alerted dedupExState "T" [sig1Tx, sig2Tx] = true :=
  already_alerted_of_signature_overlap dedupExState "T" [sig1Tx, sig2Tx]
    [sig1Tx] sig1Tx (by decide) (by decide) (by decide)

/-- C3 counterexample: with `"sig1"` stored for `"T"` and a candidate holding
`"sig1"` plus the new `"sig2"`, the check reports "already alerted"
(`isNew` false) although `"sig2"` is not in the persisted store — so "not
new" does not imply that every candidate signature is stored. -/
theorem already_alerted_overlap_counterexample :
    is_multi_buy_already_alerted dedupExState "T" [sig1Tx, sig2Tx] = true ∧
    "sig2" ∈ [sig1Tx, sig2Tx].map Tx.signature ∧
    "sig2" ∉ storedSigSet dedupExState "T" := by
  decide

/-- C3 (amended): if the already-alerted check reports the candidate as not
new, then at least one (not necessarily every) transaction signature of the
candidate already exists in the persisted store for that token. -/
theorem already_alerted_implies_some_signature_stored (s : TrackerState)
    (t : String) (txs : List Tx)
    (h : is_multi_buy_already_alerted s t txs = true) :
    ∃ tx ∈ txs, tx.signature ∈ storedSigSet s t := by
  unfold is_multi_buy_already_alerted at h
  cases hst : s.transactions t with
  | none => rw [hst] at h; simp at h
  | some stored =>
    rw [hst] at h
    simp only [List.any_eq_true] at h
    obtain ⟨stx, hmem, hc⟩ := h
    have hsig : stx.signature ∈ txs.map Tx.signature := by simpa using hc
    obtain ⟨tx, htx, heq⟩ := List.mem_map.1 hsig
    refine ⟨tx, htx, ?_⟩
    simp only [storedSigSet, hst, Option.getD_some, List.mem_toFinset, List.mem_map]
    exact ⟨stx, hmem, heq.symm ▸ rfl⟩

/-- C3 amended witness: instantiates the amended claim on the stored
`"sig1"` scenario. -/
theorem already_alerted_implies_some_signature_stored_witness :
    ∃ tx ∈ [sig1Tx, sig2Tx], tx.signature ∈ storedSigSet dedupExState "T" :=
  already_alerted_implies_some_signature_stored dedupExState "T" [sig1Tx, sig2Tx]
    (by decide)

/-- C4 counterexample: committing the same candidate twice is not idempotent
on the persisted list — the stored transaction list for `"T"` differs after
the second commit, and the already-present signature `"sig1"` is stored
twice. -/
theorem store_multi_buy_twice_duplicates_list :
    (store_multi_buy (store_multi_buy (freshState 3 3) "T" [sig1Tx]) "T" [sig1Tx]).transactions "T"
      ≠ (store_multi_buy (freshState 3 3) "T" [sig1Tx]).transactions "T" ∧
    ((((store_multi_buy (store_multi_buy (freshState 3 3) "T" [sig1Tx]) "T" [sig1Tx]).transactions "T").getD []).map
      Tx.signature).count "sig1" = 2 := by
  decide

/-- C4 (amended): committing the same candidate twice leaves the persisted
signature **set** for the token equal to committing it once (the stored list
grows with duplicate entries, but no new signature appears). -/
theorem store_multi_buy_signature_set_idempotent (s : TrackerState)
    (t : String) (txs : List Tx) :
    storedSigSet (store_multi_buy (store_multi_buy s t txs) t txs) t
      = storedSigSet (store_multi_buy s t txs) t := by
  simp [storedSigSet, store_multi_buy, List.toFinset_append, Finset.union_assoc]

/-- C8 counterexample: a wallet with no recorded call is polled at time 100
and the fetch returns the empty list; the last-call time is not updated
(`src/bot.py:665` updates it only when transactions were returned), so
30 seconds later — well inside the claimed 60-second cooldown —
`can_call_api` still returns `true` and the wallet would be re-queried. -/
theorem empty_fetch_no_cooldown_counterexample :
    can_call_api (freshState 3 3) 100 "W" = true ∧
    can_call_api ((poll_wallet (freshState 3 3) 100 "W" []).1) 130 "W" = true := by
  decide

/-- C8 (amended): a wallet whose polled fetch returned a **non-empty** list at
time `now` has its last-call time recorded, and `can_call_api` then returns
`false` until 60 seconds have elapsed and `true` from 60 seconds on; a fetch
returning the empty list does not update the last-call time. -/
theorem cooldown_after_nonempty_fetch (s : TrackerState) (now t' : Int)
    (w : String) (fetched : List Tx)
    (hcan : can_call_api s now w = true) (hne : fetched ≠ []) :
    (t' - now < 60 → can_call_api ((poll_wallet s now w fetched).1) t' w = false) ∧
    (60 ≤ t' - now → can_call_api ((poll_wallet s now w fetched).1) t' w = true) ∧
    (poll_wallet s now w []).1.last_api_calls w = s.last_api_calls w := by
  have hupd : (poll_wallet s now w fetched).1 = update_last_api_call s now w := by
    unfold poll_wallet
    rw [if_pos hcan]
    simp [List.isEmpty_iff, hne]
  have hlook : (update_last_api_call s now w).last_api_calls w = Option.some now := by
    simp [update_last_api_call]
  refine ⟨?_, ?_, ?_⟩
  · intro hlt
    rw [hupd]
    unfold can_call_api
    rw [hlook]
    simp only [decide_eq_false_iff_not, not_le]
    exact hlt
  · intro hge
    rw [hupd]
    unfold can_call_api
    rw [hlook]
    simpa using hge
  · unfold poll_wallet
    rw [if_pos hcan]
    simp

/-- C8 amended witness: a non-empty fetch at time 100 blocks the wallet at
time 130 (30 seconds later). -/
theorem cooldown_after_nonempty_fetch_witness :
    can_call_api ((poll_wallet (freshState 3 3) 100 "W" [sig1Tx]).1) 130 "W" = false :=
  (cooldown_after_nonempty_fetch (freshState 3 3) 100 130 "W" [sig1Tx]
    (by decide) (by decide)).1 (by decide)

/-- C5 counterexample: a buy record whose `blockTimestamp` is the integer
epoch-millis `1704067200000` does not yield a canonical transaction — the
page comes back empty (the `.replace` call on the integer raises an uncaught
`AttributeError`), even when a well-formed record precedes it. -/
theorem epoch_millis_timestamp_drops_page :
    get_recent_transactions [rIntMillis] = [] ∧
    get_recent_transactions [rGoodIso, rIntMillis] = [] := by
  decide

/-- C5 (amended): timestamp parsing supports the ISO-8601 `Z`-suffix string
encoding — such a record yields a canonical transaction carrying the
corresponding Unix-seconds timestamp — but not the integer epoch-millis
encoding: a buy record whose `blockTimestamp` is an integer aborts the
transform loop and the whole page yields the empty list. -/
theorem timestamp_iso_parsed_epoch_millis_aborts
    (r rms : RawTx) (ts_s : String) (ts : Int) (amount price a : ℚ) (n : Int)
    (page : List RawTx)
    (hbuy : r.subCategory = "newPosition")
    (hts : r.blockTimestamp = PyTs.tstr ts_s)
    (hiso : isoToUnix (pyReplaceZ ts_s) = Option.some ts)
    (hamt : pyFloatOpt r.bought.amount = Option.some amount)
    (hpr : pyFloatOpt r.price = Option.some price)
    (hbuy2 : rms.subCategory = "newPosition")
    (hts2 : rms.blockTimestamp = PyTs.tint n)
    (hamt2 : pyFloatOpt rms.bought.amount = Option.some a)
    (hmem : rms ∈ page) :
    get_recent_transactions [r] =
      [{ wallet_address := r.walletAddress, token_address := r.pairAddress,
         token_symbol := r.bought.symbol, amount := amount, is_buy := true,
         is_sell := false, timestamp := ts, signature := r.signature,
         price := price, transaction_type := r.transactionType,
         sub_category := r.subCategory }] ∧
    processTx rms = Outcome.abort ∧
    get_recent_transactions page = [] := by
  have hok : processTx r = Outcome.ok
      { wallet_address := r.walletAddress, token_address := r.pairAddress,
        token_symbol := r.bought.symbol, amount := amount, is_buy := true,
        is_sell := false, timestamp := ts, signature := r.signature,
        price := price, transaction_type := r.transactionType,
        sub_category := r.subCategory } := by
    simp [processTx, hbuy, hts, hiso, hamt, hpr]
  have habort : processTx rms = Outcome.abort := by
    simp [processTx, hbuy2, hts2, hamt2]
  refine ⟨?_, habort, ?_⟩
  · simp [get_recent_transactions, processResult, hok]
  · simp [get_recent_transactions, processResult_abort habort page hmem]

/-- C5 amended witness: the concrete ISO record parses to epoch second
1704067200 and the concrete epoch-millis record empties its page. -/
theorem timestamp_iso_parsed_epoch_millis_aborts_witness :
    get_recent_transactions [rGoodIso] =
      [{ wallet_address := "W1", token_address := "P1", token_symbol := "TOK",
         amount := 2, is_buy := true, is_sell := false,
         timestamp := 1704067200, signature := "g1", price := 1,
         transaction_type := "buy", sub_category := "newPosition" }] ∧
    processTx rIntMillis = Outcome.abort ∧
    get_recent_transactions [rGoodIso, rIntMillis] = [] :=
  timestamp_iso_parsed_epoch_millis_aborts rGoodIso rIntMillis
    "2024-01-01T00:00:00Z" 1704067200 2 1 2 1704067200000
    [rGoodIso, rIntMillis] (by decide) (by decide) (by decide) (by decide)
    (by decide) (by decide) (by decide) (by decide) (by decide)

/-- C6: a record whose `blockTimestamp` is an unparseable string is skipped
(`ValueError` caught, `continue`), and the rest of the page is processed
exactly as if the record were absent — no other record is dropped and the
fetch does not fail. -/
theorem unparseable_timestamp_skips_only_that_record
    (l₁ l₂ : List RawTx) (r : RawTx) (ts_s : String)
    (hts : r.blockTimestamp = PyTs.tstr ts_s)
    (hiso : isoToUnix (pyReplaceZ ts_s) = Option.none) :
    processTx r = Outcome.skip ∧
    get_recent_transactions (l₁ ++ r :: l₂) = get_recent_transactions (l₁ ++ l₂) := by
  have hskip : processTx r = Outcome.skip := by
    simp only [processTx, hts, hiso]
    split
    · split
      · rfl
      · rfl
    · rfl
  exact ⟨hskip, by simp [get_recent_transactions, processResult_skip hskip]⟩

/-- C6 witness: the `"not-a-timestamp"` record is skipped between two good
records, which are both kept. -/
theorem unparseable_timestamp_skips_only_that_record_witness :
    processTx rBadIso = Outcome.skip ∧
    get_recent_transactions ([rGoodIso] ++ rBadIso :: [rGoodIso]) =
      get_recent_transactions ([rGoodIso] ++ [rGoodIso]) :=
  unparseable_timestamp_skips_only_that_record [rGoodIso] [rGoodIso] rBadIso
    "not-a-timestamp" (by decide) (by decide)

/-- C7 counterexample: a buy record whose bought amount is the non-numeric
string `"oops"` yields no canonical transaction at all (`float("oops")`
raises `ValueError` and the record is skipped) — in particular no
transaction with `amount = 0` is produced — while a following good record
survives. -/
theorem malformed_amount_not_zero_counterexample :
    get_recent_transactions [rOopsAmount] = [] ∧
    (get_recent_transactions [rOopsAmount, rGoodIso]).map Tx.signature = ["g1"] := by
  decide

/-- C7 (amended): a buy or sell record whose amount in the `bought`/`sold`
sub-object is malformed (non-numeric string or `null`) is skipped — it does
not yield an `amount = 0` transaction — and the rest of the page is
processed as if the record were absent; a missing amount field, by contrast,
converts to `0`. -/
theorem malformed_amount_skips_record (l₁ l₂ : List RawTx) (r : RawTx)
    (hamt : pyFloatOpt
      (if r.subCategory = "newPosition" then r.bought else r.sold).amount
        = Option.none) :
    processTx r = Outcome.skip ∧
    get_recent_transactions (l₁ ++ r :: l₂) = get_recent_transactions (l₁ ++ l₂) ∧
    pyFloatOpt Option.none = Option.some 0 := by
  have hskip : processTx r = Outcome.skip := by
    simp only [processTx]
    split
    · rw [hamt]
    · rfl
  exact ⟨hskip, by simp [get_recent_transactions, processResult_skip hskip], rfl⟩

/-- C7 amended witness: the `"oops"`-amount record is skipped between two
good records, which are both kept. -/
theorem malformed_amount_skips_record_witness :
    processTx rOopsAmount = Outcome.skip ∧
    get_recent_transactions ([rGoodIso] ++ rOopsAmount :: [rGoodIso]) =
      get_recent_transactions ([rGoodIso] ++ [rGoodIso]) ∧
    pyFloatOpt Option.none = Option.some 0 :=
  malformed_amount_skips_record [rGoodIso] [rGoodIso] rOopsAmount (by decide)

/-- C9 counterexample: the two batches are permutations of each other, yet
`detect_multi_buys` (threshold 2, empty store) returns the `T1` candidate on
one and the `T2` candidate on the other — the single returned candidate is
the first qualifying token in input order, so detection is not
order-independent. -/
theorem detect_multi_buys_order_dependent :
    permBatchA.Perm permBatchB ∧
    (detect_multi_buys (freshState 2 2) permBatchA).map Candidate.token_address
      = Option.some "T1" ∧
    (detect_multi_buys (freshState 2 2) permBatchB).map Candidate.token_address
      = Option.some "T2" ∧
    detect_multi_buys (freshState 2 2) permBatchA
      ≠ detect_multi_buys (freshState 2 2) permBatchB := by
  refine ⟨List.perm_append_comm, ?_, ?_, ?_⟩
  · decide
  · decide
  · decide

/-- C9 (amended): the grouping underlying `detect_multi_buys` is
order-independent at the level of per-token aggregates — for every batch,
every permutation of it and every (non-empty) token address, the recorded
distinct-wallet set and amount total coincide, so the set of tokens meeting
the threshold is permutation-invariant; only the choice among several
qualifying tokens (the first in input order) depends on the order. -/
theorem grouping_aggregates_order_independent (l l' : List Tx)
    (h : l.Perm l') (t : String) (ht : t ≠ "") :
    groupWalletSet (l.foldl addBuyTx []) t = groupWalletSet (l'.foldl addBuyTx []) t ∧
    groupTotalAmount (l.foldl addBuyTx []) t
      = groupTotalAmount (l'.foldl addBuyTx []) t := by
  refine ⟨?_, ?_⟩
  · rw [groupWalletSet_foldl l [] t ht, groupWalletSet_foldl l' [] t ht,
      buyWalletSet_perm h t]
  · rw [groupTotalAmount_foldl l [] t ht, groupTotalAmount_foldl l' [] t ht,
      buyTotal_perm h t]

/-- C9 amended witness: the shuffled two-token batches agree on the `T1`
aggregates. -/
theorem grouping_aggregates_order_independent_witness :
    groupWalletSet (permBatchA.foldl addBuyTx []) "T1"
      = groupWalletSet (permBatchB.foldl addBuyTx []) "T1" ∧
    groupTotalAmount (permBatchA.foldl addBuyTx []) "T1"
      = groupTotalAmount (permBatchB.foldl addBuyTx []) "T1" :=
  grouping_aggregates_order_independent permBatchA permBatchB
    (by decide) "T1" (by decide)

/-- The four-record buy batch of the C1 scenario: token `T`, wallets
`A, A, B, C`. -/
def c1Batch4 (A B C T : String) : List Tx :=
  [mkBuy A T "q1" 1, mkBuy A T "q2" 1, mkBuy B T "q3" 1, mkBuy C T "q4" 1]

/-- The three-record buy batch of the C1 scenario: token `T`, wallets
`A, A, B`. -/
def c1Batch3 (A B T : String) : List Tx :=
  [mkBuy A T "q1" 1, mkBuy A T "q2" 1, mkBuy B T "q3" 1]

theorem assocFind_single (k : String) (g : TokenGroup) :
    assocFind [(k, g)] k = Option.some g := by
  simp [assocFind]

theorem assocUpdate_single (k : String) (g v : TokenGroup) :
    assocUpdate [(k, g)] k v = [(k, v)] := by
  simp [assocUpdate]

/-- C1: with threshold `min_buys_for_alert = 3` and no stored record for the
token, a batch of buy records of token `T` from wallets `A, A, B, C` (four
records, three distinct wallets) yields a candidate for `T` with
`wallet_count = 3` — distinct wallets are counted as a set, not as a
transaction count — while the batch from `A, A, B` (two distinct wallets)
yields none. -/
theorem detect_multi_buys_threshold_distinct_wallets (s : TrackerState)
    (A B C T : String)
    (hAB : A ≠ B) (hAC : A ≠ C) (hBC : B ≠ C) (hT : T ≠ "")
    (hthr : s.min_buys_for_alert = 3)
    (hstore : s.transactions T = Option.none) :
    (∃ c, detect_multi_buys s (c1Batch4 A B C T) = Option.some c ∧
      c.token_address = T ∧ c.wallet_count = 3) ∧
    detect_multi_buys s (c1Batch3 A B T) = Option.none := by
  have e1 : addBuyTx [] (mkBuy A T "q1" 1)
      = [(T, { wallets := {A}, total_amount := 1, token_symbol := "S",
               transactions := [mkBuy A T "q1" 1] })] := by
    simp [addBuyTx, assocFind, mkBuy, hT]
  have e2 : addBuyTx
      [(T, { wallets := {A}, total_amount := 1, token_symbol := "S",
             transactions := [mkBuy A T "q1" 1] })] (mkBuy A T "q2" 1)
      = [(T, { wallets := insert A {A}, total_amount := 2, token_symbol := "S",
               transactions := [mkBuy A T "q1" 1, mkBuy A T "q2" 1] })] := by
    rw [addBuyTx_existing rfl hT (assocFind_single T _)]
    dsimp only [mkBuy]
    rw [assocUpdate_single]
    norm_num
  have e3 : addBuyTx
      [(T, { wallets := insert A {A}, total_amount := 2, token_symbol := "S",
             transactions := [mkBuy A T "q1" 1, mkBuy A T "q2" 1] })]
      (mkBuy B T "q3" 1)
      = [(T, { wallets := insert B (insert A {A}), total_amount := 3,
               token_symbol := "S",
               transactions := [mkBuy A T "q1" 1, mkBuy A T "q2" 1,
                 mkBuy B T "q3" 1] })] := by
    rw [addBuyTx_existing rfl hT (assocFind_single T _)]
    dsimp only [mkBuy]
    rw [assocUpdate_single]
    norm_num
  have e4 : addBuyTx
      [(T, { wallets := insert B (insert A {A}), total_amount := 3,
             token_symbol := "S",
             transactions := [mkBuy A T "q1" 1, mkBuy A T "q2" 1,
               mkBuy B T "q3" 1] })] (mkBuy C T "q4" 1)
      = [(T, { wallets := insert C (insert B (insert A {A})), total_amount := 4,
               token_symbol := "S",
               transactions := [mkBuy A T "q1" 1, mkBuy A T "q2" 1,
                 mkBuy B T "q3" 1, mkBuy C T "q4" 1] })] := by
    rw [addBuyTx_existing rfl hT (assocFind_single T _)]
    dsimp only [mkBuy]
    rw [assocUpdate_single]
    norm_num
  have hfold4 : (c1Batch4 A B C T).foldl addBuyTx []
      = [(T, { wallets := insert C (insert B (insert A {A})), total_amount := 4,
               token_symbol := "S",
               transactions := [mkBuy A T "q1" 1, mkBuy A T "q2" 1,
                 mkBuy B T "q3" 1, mkBuy C T "q4" 1] })] := by
    simp only [c1Batch4, List.foldl_cons, List.foldl_nil, e1, e2, e3, e4]
  have hfold3 : (c1Batch3 A B T).foldl addBuyTx []
      = [(T, { wallets := insert B (insert A {A}), total_amount := 3,
               token_symbol := "S",
               transactions := [mkBuy A T "q1" 1, mkBuy A T "q2" 1,
                 mkBuy B T "q3" 1] })] := by
    simp only [c1Batch3, List.foldl_cons, List.foldl_nil, e1, e2, e3]
  have hAA : insert A ({A} : Finset String) = {A} :=
    Finset.insert_eq_self.2 (Finset.mem_singleton_self A)
  have hcard4 : (insert C (insert B (insert A ({A} : Finset String)))).card = 3 := by
    rw [hAA, Finset.card_insert_of_not_mem (by simp [Ne.symm hBC, Ne.symm hAC]),
      Finset.card_insert_of_not_mem (by simp [Ne.symm hAB]), Finset.card_singleton]
  have hcard3 : (insert B (insert A ({A} : Finset String))).card = 2 := by
    rw [hAA, Finset.card_insert_of_not_mem (by simp [Ne.symm hAB]),
      Finset.card_singleton]
  constructor
  · have hdet : detect_multi_buys s (c1Batch4 A B C T)
        = Option.some
          { token_address := T, token_symbol := "S", wallet_count := 3,
            total_amount := 4,
            transactions := [mkBuy A T "q1" 1, mkBuy A T "q2" 1,
              mkBuy B T "q3" 1, mkBuy C T "q4" 1] } := by
      unfold detect_multi_buys
      rw [hfold4]
      simp only [scanBuyGroups, is_multi_buy_already_alerted, hstore, hthr, hcard4]
      simp
    exact ⟨_, hdet, rfl, rfl⟩
  · unfold detect_multi_buys
    rw [hfold3]
    simp only [scanBuyGroups, hthr, hcard3]
    simp

/-- C1 witness: the concrete `A/B/C/T` instance with a fresh tracker at
threshold 3. -/
theorem detect_multi_buys_threshold_distinct_wallets_witness :
    (∃ c, detect_multi_buys (freshState 3 3) (c1Batch4 "A" "B" "C" "T")
        = Option.some c ∧ c.token_address = "T" ∧ c.wallet_count = 3) ∧
    detect_multi_buys (freshState 3 3) (c1Batch3 "A" "B" "T") = Option.none :=
  detect_multi_buys_threshold_distinct_wallets (freshState 3 3) "A" "B" "C" "T"
    (by decide) (by decide) (by decide) (by decide) rfl rfl

end SparkWallet
